import Mathlib

/-!
Shallow embedding of `lapce-proxy/src/plugin/dap.rs`: the Debug Adapter
Protocol (DAP) client core of the Lapce proxy.  Pure data is translated
directly; the effectful parts (editor RPC calls, outbound payloads, spawned
worker threads) are made explicit as an `Effect` list, and the synchronous
request round-trips issued from the session mainloop (`set_breakpoints`,
`threads`, `stack_trace`, `initialize`, process spawning) are abstracted as
an `Oracle` providing their results.  The `u64` sequence counter is modelled
as a `Nat` reduced modulo `2 ^ 64`, mirroring the wrapping semantics of
`AtomicU64::fetch_add`.
-/

set_option autoImplicit false

namespace Dap

/-- Stable identifier of one DAP session (`DapId`). -/
abbrev DapId := Nat

/-- Editor-owned terminal identifier (`TermId`). -/
abbrev TermId := Nat

/-- DAP thread identifier (`ThreadId`). -/
abbrev ThreadId := Nat

/-- Source file path; `PathBuf` in the source. -/
abbrev Path := String

/-- `lapce_rpc::RpcError` as constructed in `dap.rs`: a code and a message. -/
structure RpcError where
  code : Int
  message : String
  deriving DecidableEq

/-- `RunInTerminalArguments`: only the `args` field is read by the core
(`args.args.join(" ")`); the remaining DAP fields are never inspected. -/
structure RunInTerminalArguments where
  args : List String
  deriving DecidableEq

/-- `RunInTerminalResponse { process_id, shell_process_id }`. -/
structure RunInTerminalResponse where
  process_id : Option Nat
  shell_process_id : Option Nat
  deriving DecidableEq

/-- Stand-in for `serde_json::Value` restricted to the shapes the core
actually serializes or deserializes: `runInTerminal` arguments (decoded from
a host request) and the `RunInTerminalResponse` body (encoded into the
response).  Every other JSON document is opaque (`other`). -/
inductive Value where
  | null
  | runInTerminalArgs (a : RunInTerminalArguments)
  | runInTerminalResponse (r : RunInTerminalResponse)
  | other (tag : Nat)
  deriving DecidableEq

/-- `dap_types::Stopped`, restricted to the fields the core reads
(`all_threads_stopped`) plus the identifying fields it forwards unchanged. -/
structure Stopped where
  reason : String
  thread_id : Option ThreadId
  all_threads_stopped : Option Bool
  deriving DecidableEq

/-- One DAP thread as returned by the `threads` request. -/
structure ThreadStruct where
  id : ThreadId
  name : String
  deriving DecidableEq

/-- `ThreadsResponse { threads }`. -/
structure ThreadsResponse where
  threads : List ThreadStruct
  deriving DecidableEq

/-- A stack frame; the core never looks inside, it only forwards frames. -/
structure StackFrame where
  id : Nat
  name : String
  deriving DecidableEq

/-- `StackTraceResponse { stack_frames, total_frames }`. -/
structure StackTraceResponse where
  stack_frames : List StackFrame
  total_frames : Option Nat
  deriving DecidableEq

/-- A verified breakpoint as reported back by the adapter. -/
structure Breakpoint where
  verified : Bool
  line : Option Nat
  deriving DecidableEq

/-- A source breakpoint as stored in the session's breakpoint table. -/
structure SourceBreakpoint where
  line : Nat
  deriving DecidableEq

/-- `SetBreakpointsResponse { breakpoints }`. -/
structure SetBreakpointsResponse where
  breakpoints : Option (List Breakpoint)
  deriving DecidableEq

/-- `DebuggerCapabilities`, restricted to the only capability the core
reads: `supports_terminate_request`.  All other fields are never inspected
by `dap.rs`. -/
structure DebuggerCapabilities where
  supports_terminate_request : Option Bool
  deriving DecidableEq

/-- `RunDebugConfig`, restricted to the fields `dap.rs` reads:
`dap_id`, `debug_command` (set by the `runInTerminal` handler) and the
`program`/`args`/`cwd` triple assembled into the `launch` arguments. -/
structure RunDebugConfig where
  dap_id : DapId
  program : String
  args : List String
  cwd : Option String
  debug_command : Option String
  deriving DecidableEq

/-- `DapServer`: the adapter executable descriptor. -/
structure DapServer where
  program : String
  args : List String
  cwd : Option String
  deriving DecidableEq

/-- An inbound or outbound DAP request (`DapRequest { seq, command,
arguments }`). -/
structure DapRequest where
  seq : Nat
  command : String
  arguments : Option Value
  deriving DecidableEq

/-- A DAP response (`DapResponse { request_seq, success, command, message,
body }`). -/
structure DapResponse where
  request_seq : Nat
  success : Bool
  command : String
  message : Option String
  body : Option Value
  deriving DecidableEq

/-- `DapEvent`: the adapter-emitted event sum type.  Payloads the core never
reads are carried as opaque `Value`s. -/
inductive DapEvent where
  | initialized (body : Option Value)
  | stopped (s : Stopped)
  | continued (body : Value)
  | exited (body : Value)
  | terminated (body : Option Value)
  | thread (body : Value)
  | output (body : Value)
  | breakpoint (reason : String) (bp : Value)
  | module (body : Value)
  | loadedSource (body : Value)
  | process (body : Value)
  | capabilities (body : Value)
  | memory (body : Value)
  deriving DecidableEq

/-- `DapPayload`: the wire-level sum of requests, responses and events. -/
inductive DapPayload where
  | request (r : DapRequest)
  | response (r : DapResponse)
  | event (e : DapEvent)
  deriving DecidableEq

/-- The observable actions of the session core, in program order: payloads
put on the adapter's wire, editor RPC emissions, synchronous requests issued
to the adapter, and worker threads spawned for detached requests. -/
inductive Effect where
  | sendPayload (p : DapPayload)
  | runInTerminal (cfg : RunDebugConfig)
  | dapBreakpointsResp (id : DapId) (path : Path) (bps : List Breakpoint)
  | dapStopped (id : DapId) (s : Stopped) (frames : List (ThreadId × List StackFrame))
  | dapContinued (id : DapId)
  | terminalClose (t : TermId)
  | reqSetBreakpoints (path : Path) (bps : List SourceBreakpoint)
  | reqConfigurationDone
  | reqThreads
  | reqStackTrace (tid : ThreadId)
  | spawnProcess
  | reqInitialize
  | launchWorker (cfg : RunDebugConfig)
  | terminateWorker
  | disconnectWorker
  deriving DecidableEq

/-- Outcome of running a piece of Rust code that may hit a `todo!()`:
either a normal return or a panic with the panic message. -/
inductive Outcome (α : Type) where
  | ok (a : α)
  | panic (msg : String)
  deriving DecidableEq

/-- Whether an `Outcome` is a normal return. -/
def Outcome.isOk {α : Type} : Outcome α → Bool
  | .ok _ => true
  | .panic _ => false

/-! ## Protocol runtime (`DapRpcHandler`) -/

/-- Modelled from the spec: the `ResponseHandler` type lives in the sibling
`psp` module (not part of this file's source).  Per the spec it is "either a
one-shot synchronous rendezvous (bounded capacity 1) or a user-supplied
callback".  The rendezvous channel's receiver may have been dropped (after
the 30-second timeout); `receiverAlive` records that channel state, and a
send into a dropped channel simply fails. -/
inductive RHandler where
  | chan (receiverAlive : Bool)
  | callback (id : Nat)
  deriving DecidableEq

/-- Modelled from the spec: invoking a response handler.  A live rendezvous
or a callback delivers the response; a send into a dropped channel fails
silently and delivers nothing. -/
def RHandler.invoke : RHandler → DapResponse → Option DapResponse
  | .chan true, r => some r
  | .chan false, _ => none
  | .callback _, r => some r

/-- The pending-response table (`HashMap<u64, ResponseHandler>`), modelled
as an association list with insert-overwrite semantics. -/
abbrev Pending := List (Nat × RHandler)

/-- `HashMap::insert`: replace the binding for `k` if present, else append. -/
def insertPending (p : Pending) (k : Nat) (rh : RHandler) : Pending :=
  match p with
  | [] => [(k, rh)]
  | (k', rh') :: rest =>
      if k' = k then (k, rh) :: rest else (k', rh') :: insertPending rest k rh

/-- `HashMap::get`: look up a key. -/
def lookupPending (p : Pending) (k : Nat) : Option RHandler :=
  match p with
  | [] => none
  | (k', rh') :: rest => if k' = k then some rh' else lookupPending rest k

/-- `HashMap::remove`: drop the binding for `k`. -/
def removePending (p : Pending) (k : Nat) : Pending :=
  match p with
  | [] => []
  | (k', rh') :: rest =>
      if k' = k then rest else (k', rh') :: removePending rest k

/-- Mark the rendezvous channel stored under `k` as having a dropped
receiver (the caller's `rx` went out of scope after the timeout).  The entry
itself stays in the table. -/
def markReceiverDropped (p : Pending) (k : Nat) : Pending :=
  match p with
  | [] => []
  | (k', rh') :: rest =>
      if k' = k then
        (k', match rh' with
             | RHandler.chan _ => RHandler.chan false
             | h => h) :: rest
      else (k', rh') :: markReceiverDropped rest k

/-- The size of the `u64` value space; `AtomicU64::fetch_add` wraps at this
modulus. -/
def u64Size : Nat := 2 ^ 64

/-- The mutable state of `DapRpcHandler`: the atomic sequence counter and
the mutex-guarded pending table.  The representation invariant of the `u64`
atomic (value `< 2 ^ 64`) is expressed by reducing reads modulo `u64Size`. -/
structure HandlerState where
  seq_counter : Nat
  server_pending : Pending
  deriving DecidableEq

namespace DapRpcHandler

/-- `DapRpcHandler::new`: the sequence counter starts at 0 and the pending
table is empty. -/
def new : HandlerState := { seq_counter := 0, server_pending := [] }

/-- `DapRpcHandler::request_common`: allocate `seq` by a wrapping
fetch-and-add on the counter, insert the response handler into the pending
table under `seq`, and put the stamped `DapRequest` on the wire.  Returns
the allocated seq, the outbound request, and the updated state. -/
def request_common (st : HandlerState) (command : String)
    (arguments : Option Value) (rh : RHandler) :
    Nat × DapRequest × HandlerState :=
  let seq := st.seq_counter % u64Size
  (seq,
   { seq := seq, command := command, arguments := arguments },
   { seq_counter := (st.seq_counter + 1) % u64Size,
     server_pending := insertPending st.server_pending seq rh })

/-- `DapRpcHandler::request` (synchronous path): install a rendezvous
handler, then wait up to 30 seconds.  `arrival = none` models the timeout:
the call returns the `"io error"` `RpcError` and drops the receiving end of
the rendezvous, leaving the pending entry in the table.  `arrival = some
resp` models a response delivered in time: decode success or surface the
adapter's message.  (Typed decoding of the body into `R::Result` is external
serde code and is not modelled; the raw response is returned.) -/
def request (st : HandlerState) (command : String) (arguments : Option Value)
    (arrival : Option DapResponse) :
    Except RpcError DapResponse × HandlerState :=
  let r := request_common st command arguments (RHandler.chan true)
  match arrival with
  | none =>
      (Except.error { code := 0, message := "io error" },
       { r.2.2 with
         server_pending := markReceiverDropped r.2.2.server_pending r.1 })
  | some resp =>
      if resp.success then (Except.ok resp, r.2.2)
      else
        (Except.error { code := 0, message := resp.message.getD "" }, r.2.2)

/-- `DapRpcHandler::handle_server_response`: look the response's
`request_seq` up in the pending table; if present remove the entry and
invoke its handler with the response, else do nothing.  Returns the new
table and what (if anything) the handler delivered. -/
def handle_server_response (p : Pending) (resp : DapResponse) :
    Pending × Option DapResponse :=
  match lookupPending p resp.request_seq with
  | some rh => (removePending p resp.request_seq, rh.invoke resp)
  | none => (p, none)

end DapRpcHandler

/-- The handler state after `n` outbound requests have been issued on a
fresh handler (the concrete command and handler shape do not affect the
counter).  Concurrent callers are collapsed into the total modification
order of the atomic fetch-and-add. -/
def afterRequests : Nat → HandlerState
  | 0 => DapRpcHandler.new
  | n + 1 =>
      (DapRpcHandler.request_common (afterRequests n) "initialize" none
        (RHandler.chan true)).2.2

/-- The seq stamped into the `n`-th (0-indexed) outbound request of a
session. -/
def seqOfNth (n : Nat) : Nat :=
  (DapRpcHandler.request_common (afterRequests n) "initialize" none
    (RHandler.chan true)).1

theorem afterRequests_seq_counter (n : Nat) :
    (afterRequests n).seq_counter = n % u64Size := by
  induction n with
  | zero => rfl
  | succ n ih =>
      show ((afterRequests n).seq_counter + 1) % u64Size = (n + 1) % u64Size
      rw [ih]
      simp only [u64Size]
      omega

theorem seqOfNth_eq (n : Nat) : seqOfNth n = n % u64Size := by
  show (afterRequests n).seq_counter % u64Size = n % u64Size
  rw [afterRequests_seq_counter]
  simp only [u64Size]
  omega

/-! ## Session state machine (`DapClient`) -/

/-- The breakpoint table `HashMap<PathBuf, Vec<SourceBreakpoint>>`, modelled
as an association list (hash-map iteration order is collapsed to list
order). -/
abbrev Breakpoints := List (Path × List SourceBreakpoint)

/-- The session state of `DapClient` (the `plugin_rpc` and `dap_rpc` handles
are modelled by the `Effect`s emitted through them; `dap_rpc.dap_id` equals
`config.dap_id`, the value `DapClient::new` constructs the handler with). -/
structure DapClient where
  dap_server : DapServer
  config : RunDebugConfig
  breakpoints : Breakpoints
  term_id : Option TermId
  capabilities : Option DebuggerCapabilities
  terminated : Bool
  disconnected : Bool
  restarted : Bool
  deriving DecidableEq

/-- The environment supplying the results of the synchronous round-trips
that `DapClient` methods perform: spawning the adapter process
(`start_process`), the `Initialize` request (`initialize`), and the
`setBreakpoints` / `threads` / `stackTrace` requests.  Each call site also
records the corresponding `Effect`. -/
structure Oracle where
  startProcess : Except String Unit
  initializeResp : Except RpcError DebuggerCapabilities
  setBreakpoints : Path → List SourceBreakpoint → Except RpcError SetBreakpointsResponse
  threads : Except RpcError ThreadsResponse
  stackTrace : ThreadId → Except RpcError StackTraceResponse

namespace DapClient

/-- The capability test
`self.capabilities.as_ref().and_then(|c| c.supports_terminate_request).unwrap_or(false)`
used by both `stop` and `check_restart`. -/
def supportsTerminate (c : DapClient) : Bool :=
  (c.capabilities.bind DebuggerCapabilities.supports_terminate_request).getD false

/-- `DapClient::stop`: if the stored capabilities advertise
`supports_terminate_request`, send `Terminate` on a detached worker thread;
otherwise send `Disconnect` on a detached worker thread.  The session state
is not modified. -/
def stop (c : DapClient) : Effect :=
  if c.supportsTerminate then Effect.terminateWorker else Effect.disconnectWorker

/-- `DapClient::check_restart`: the restart check run after a `Terminated`
event, a `Disconnected` notification, or a `restart` call on a terminated
session.  Returns the new session state, the effects performed, and the
error (if any) with which the `?` operator aborted the function.  Note the
source clears `restarted` before attempting the respawn, so a spawn or
initialize failure still leaves `restarted` cleared. -/
def check_restart (o : Oracle) (c : DapClient) :
    DapClient × List Effect × Option String :=
  if !c.restarted then (c, [], none)
  else if !c.supportsTerminate && !c.disconnected then (c, [], none)
  else
    let c1 := { c with restarted := false }
    if c1.disconnected then
      match o.startProcess with
      | Except.error e => (c1, [], some e)
      | Except.ok _ =>
          match o.initializeResp with
          | Except.error e => (c1, [Effect.spawnProcess, Effect.reqInitialize], some e.message)
          | Except.ok caps =>
              let c2 := { c1 with
                capabilities := some caps,
                terminated := false, disconnected := false }
              (c2,
               [Effect.spawnProcess, Effect.reqInitialize,
                Effect.launchWorker c2.config], none)
    else
      let c2 := { c1 with terminated := false, disconnected := false }
      (c2, [Effect.launchWorker c2.config], none)

/-- `DapClient::restart`: record the restart intent and the new breakpoint
table; if the session is not yet terminated run the stop logic, otherwise
evaluate the restart check immediately (its error is discarded). -/
def restart (o : Oracle) (c : DapClient) (bps : Breakpoints) :
    DapClient × List Effect :=
  let c1 := { c with restarted := true, breakpoints := bps }
  if !c1.terminated then (c1, [c1.stop])
  else
    let r := check_restart o c1
    (r.1, r.2.1)

/-- `DapClient::handle_host_request`: the mainloop's handling of a
server→host request.  Only `runInTerminal` is implemented: decode the
arguments, space-join `args.args` into `debug_command` on a clone of the
run configuration, emit `run_in_terminal` to the editor, block on the
terminal-handshake channel (modelled as a list of pending `(term_id, pid)`
tuples; the head is the tuple the editor pushes) and store the received
`term_id`; the response body is the serialized `RunInTerminalResponse`.
Every other command fails with `"not implemented"`.  Returns the result,
the new session state, the rest of the handshake channel, and the effects. -/
def handle_host_request (c : DapClient) (chan : List (TermId × Option Nat))
    (req : DapRequest) :
    Except String Value × DapClient × List (TermId × Option Nat) × List Effect :=
  if req.command = "runInTerminal" then
    match req.arguments with
    | none => (Except.error "no arguments", c, chan, [])
    | some v =>
        match v with
        | Value.runInTerminalArgs a =>
            let command := String.intercalate " " a.args
            let config := { c.config with debug_command := some command }
            match chan with
            | [] =>
                -- the handshake channel is empty and disconnected: `recv` fails
                (Except.error "channel is empty and disconnected", c, chan,
                 [Effect.runInTerminal config])
            | (term_id, process_id) :: rest =>
                (Except.ok (Value.runInTerminalResponse
                    { process_id := process_id, shell_process_id := none }),
                 { c with term_id := some term_id }, rest,
                 [Effect.runInTerminal config])
        | _ => (Except.error "serde decode error", c, chan, [])
  else (Except.error "not implemented", c, chan, [])

/-- The per-thread stack-frame map assembled on a `Stopped` event with
`all_threads_stopped`, together with the requests issued: one `Threads`
query, then one `StackTrace` query per returned thread; threads whose
`StackTrace` fails are skipped (`HashMap::insert` is insert-overwrite). -/
def insertFrames (m : List (ThreadId × List StackFrame)) (k : ThreadId)
    (v : List StackFrame) : List (ThreadId × List StackFrame) :=
  match m with
  | [] => [(k, v)]
  | (k', v') :: rest =>
      if k' = k then (k, v) :: rest else (k', v') :: insertFrames rest k v

/-- The per-thread body of the `Stopped` handler's loop: issue one
`StackTrace` query for the thread and, on success, insert its frames into
the accumulated map (threads whose query fails are skipped). -/
def stoppedStep (o : Oracle) (acc : List (ThreadId × List StackFrame) × List Effect)
    (t : ThreadStruct) : List (ThreadId × List StackFrame) × List Effect :=
  match o.stackTrace t.id with
  | Except.ok fr =>
      (insertFrames acc.1 t.id fr.stack_frames,
       acc.2 ++ [Effect.reqStackTrace t.id])
  | Except.error _ => (acc.1, acc.2 ++ [Effect.reqStackTrace t.id])

/-- `DapClient::handle_host_event`: the single-threaded event dispatcher.
`Output`, `Module`, `LoadedSource`, `Capabilities` and `Memory` are
`todo!()` in the source and therefore panic; `Exited`, `Thread` and
`Process` are ignored; `Breakpoint` is only printed to stdout. -/
def handle_host_event (o : Oracle) (c : DapClient) (event : DapEvent) :
    Outcome (DapClient × List Effect) :=
  match event with
  | DapEvent.initialized _ =>
      let effs := c.breakpoints.foldl
        (fun effs pb =>
          match o.setBreakpoints pb.1 pb.2 with
          | Except.ok resp =>
              effs ++ [Effect.reqSetBreakpoints pb.1 pb.2,
                Effect.dapBreakpointsResp c.config.dap_id pb.1
                  (resp.breakpoints.getD [])]
          | Except.error _ => effs ++ [Effect.reqSetBreakpoints pb.1 pb.2]) []
      Outcome.ok (c, effs ++ [Effect.reqConfigurationDone])
  | DapEvent.stopped s =>
      let all_threads_stopped := s.all_threads_stopped.getD false
      if all_threads_stopped then
        match o.threads with
        | Except.ok resp =>
            let mf := resp.threads.foldl (stoppedStep o)
              (([] : List (ThreadId × List StackFrame)), [Effect.reqThreads])
            Outcome.ok (c, mf.2 ++ [Effect.dapStopped c.config.dap_id s mf.1])
        | Except.error _ =>
            Outcome.ok (c, [Effect.reqThreads, Effect.dapStopped c.config.dap_id s []])
      else Outcome.ok (c, [Effect.dapStopped c.config.dap_id s []])
  | DapEvent.continued _ => Outcome.ok (c, [Effect.dapContinued c.config.dap_id])
  | DapEvent.exited _ => Outcome.ok (c, [])
  | DapEvent.terminated _ =>
      let c1 := { c with terminated := true }
      let effs := match c1.term_id with
        | some t => [Effect.terminalClose t]
        | none => []
      let r := check_restart o c1
      Outcome.ok (r.1, effs ++ r.2.1)
  | DapEvent.thread _ => Outcome.ok (c, [])
  | DapEvent.output _ => Outcome.panic "not yet implemented"
  | DapEvent.breakpoint _ _ => Outcome.ok (c, [])
  | DapEvent.module _ => Outcome.panic "not yet implemented"
  | DapEvent.loadedSource _ => Outcome.panic "not yet implemented"
  | DapEvent.process _ => Outcome.ok (c, [])
  | DapEvent.capabilities _ => Outcome.panic "not yet implemented"
  | DapEvent.memory _ => Outcome.panic "not yet implemented"

end DapClient

/-- The control messages consumed by the mainloop (`enum DapRpc`). -/
inductive DapRpc where
  | hostRequest (req : DapRequest)
  | hostEvent (e : DapEvent)
  | stop
  | restart (bps : Breakpoints)
  | shutdown
  | disconnected

/-- One iteration of `DapRpcHandler::mainloop`: dispatch a single control
message.  Returns the new session state, the remaining handshake channel,
the effects performed, and whether the loop keeps running (`Shutdown`
returns from the loop). -/
def DapRpcHandler.mainloopStep (o : Oracle) (c : DapClient)
    (chan : List (TermId × Option Nat)) (msg : DapRpc) :
    Outcome (DapClient × List (TermId × Option Nat) × List Effect × Bool) :=
  match msg with
  | DapRpc.hostRequest req =>
      let h := c.handle_host_request chan req
      let resp : DapResponse :=
        { request_seq := req.seq,
          success := match h.1 with | Except.ok _ => true | Except.error _ => false,
          command := req.command,
          message := match h.1 with | Except.error e => some e | Except.ok _ => none,
          body := match h.1 with | Except.ok v => some v | Except.error _ => none }
      Outcome.ok (h.2.1, h.2.2.1,
        h.2.2.2 ++ [Effect.sendPayload (DapPayload.response resp)], true)
  | DapRpc.hostEvent e =>
      match c.handle_host_event o e with
      | Outcome.ok r => Outcome.ok (r.1, chan, r.2, true)
      | Outcome.panic m => Outcome.panic m
  | DapRpc.stop => Outcome.ok (c, chan, [c.stop], true)
  | DapRpc.restart bps =>
      let r := c.restart o bps
      Outcome.ok (r.1, chan, r.2, true)
  | DapRpc.shutdown =>
      let effs := match c.term_id with
        | some t => [Effect.terminalClose t]
        | none => []
      Outcome.ok (c, chan, effs, false)
  | DapRpc.disconnected =>
      let c1 := { c with disconnected := true }
      let effs := match c1.term_id with
        | some t => [Effect.terminalClose t]
        | none => []
      let r := DapClient.check_restart o c1
      Outcome.ok (r.1, chan, effs ++ r.2.1, true)

/-! ## Concrete fixtures used to instantiate the theorems -/

/-- A concrete adapter descriptor. -/
def server0 : DapServer := { program := "lldb-dap", args := [], cwd := none }

/-- A concrete run configuration. -/
def config0 : RunDebugConfig :=
  { dap_id := 1, program := "app", args := [], cwd := none, debug_command := none }

/-- Concrete capabilities advertising terminate support. -/
def caps0 : DebuggerCapabilities := { supports_terminate_request := some true }

/-- The `Threads` response used by the fixture oracle. -/
def threadsResp0 : ThreadsResponse :=
  { threads := [{ id := 1, name := "main" }, { id := 2, name := "worker" }] }

/-- The `StackTrace` responses used by the fixture oracle. -/
def frames0 : ThreadId → StackTraceResponse := fun t =>
  { stack_frames := [{ id := t, name := "frame" }], total_frames := none }

/-- A fixture oracle on which every synchronous round-trip succeeds. -/
def oracle0 : Oracle :=
  { startProcess := Except.ok (),
    initializeResp := Except.ok caps0,
    setBreakpoints := fun _ _ => Except.ok { breakpoints := some [] },
    threads := Except.ok threadsResp0,
    stackTrace := fun t => Except.ok (frames0 t) }

/-- A freshly started session. -/
def client0 : DapClient :=
  { dap_server := server0, config := config0, breakpoints := [],
    term_id := none, capabilities := none,
    terminated := false, disconnected := false, restarted := false }

/-- A session with a pending restart intent whose adapter has terminated
and disconnected. -/
def clientRestart : DapClient :=
  { client0 with restarted := true, terminated := true, disconnected := true }

/-! ## Helper lemmas -/

theorem lookupPending_insert (p : Pending) (k : Nat) (rh : RHandler) :
    lookupPending (insertPending p k rh) k = some rh := by
  induction p with
  | nil => simp [insertPending, lookupPending]
  | cons hd tl ih =>
      by_cases h : hd.1 = k
      · simp [insertPending, lookupPending, h]
      · simp [insertPending, lookupPending, h, ih]

theorem lookupPending_mark (p : Pending) (k : Nat) (b : Bool)
    (h : lookupPending p k = some (RHandler.chan b)) :
    lookupPending (markReceiverDropped p k) k = some (RHandler.chan false) := by
  induction p with
  | nil => simp [lookupPending] at h
  | cons hd tl ih =>
      by_cases hk : hd.1 = k
      · simp [lookupPending, hk] at h
        simp [markReceiverDropped, lookupPending, hk, h]
      · simp [lookupPending, hk] at h
        simp [markReceiverDropped, lookupPending, hk, ih h]

theorem stoppedStep_foldl (o : Oracle) (frames : ThreadId → StackTraceResponse)
    (ts : List ThreadStruct) (m : List (ThreadId × List StackFrame))
    (effs : List Effect)
    (hf : ∀ t ∈ ts, o.stackTrace t.id = Except.ok (frames t.id)) :
    ts.foldl (DapClient.stoppedStep o) (m, effs) =
      (ts.foldl
        (fun m t => DapClient.insertFrames m t.id (frames t.id).stack_frames) m,
       effs ++ ts.map (fun t => Effect.reqStackTrace t.id)) := by
  induction ts generalizing m effs with
  | nil => simp
  | cons t ts ih =>
      have ht : o.stackTrace t.id = Except.ok (frames t.id) := hf t (by simp)
      simp only [List.foldl_cons, List.map_cons, DapClient.stoppedStep, ht]
      rw [ih _ _ (fun t' ht' => hf t' (by simp [ht']))]
      simp

/-! ## Claims -/

/-- C1, counterexample: the claim says an inbound `output` event is accepted
and ignored without failing the session, but `handle_host_event` hits a
`todo!()` on `DapEvent::Output` and panics instead of returning normally. -/
theorem c1_output_event_panics :
    DapClient.handle_host_event oracle0 client0 (DapEvent.output Value.null) =
      Outcome.panic "not yet implemented" ∧
    (DapClient.handle_host_event oracle0 client0
      (DapEvent.output Value.null)).isOk = false :=
  ⟨rfl, rfl⟩

/-- C1 (amended): for every inbound adapter event whose kind is `output`,
`module`, `loadedSource`, `capabilities` or `memory`, the session's event
handler hits an unimplemented `todo!()` and panics (killing the mainloop
thread) instead of accepting and ignoring the event. -/
theorem c1_unimplemented_events_panic (o : Oracle) (c : DapClient) (v : Value) :
    DapClient.handle_host_event o c (DapEvent.output v) =
      Outcome.panic "not yet implemented" ∧
    DapClient.handle_host_event o c (DapEvent.module v) =
      Outcome.panic "not yet implemented" ∧
    DapClient.handle_host_event o c (DapEvent.loadedSource v) =
      Outcome.panic "not yet implemented" ∧
    DapClient.handle_host_event o c (DapEvent.capabilities v) =
      Outcome.panic "not yet implemented" ∧
    DapClient.handle_host_event o c (DapEvent.memory v) =
      Outcome.panic "not yet implemented" :=
  ⟨rfl, rfl, rfl, rfl, rfl⟩

/-- C7: handling a response whose `request_seq` is not present in the
pending table is a no-op: the table is returned unchanged and no handler is
invoked (nothing is delivered). -/
theorem c7_unknown_seq_noop (p : Pending) (resp : DapResponse)
    (h : lookupPending p resp.request_seq = none) :
    DapRpcHandler.handle_server_response p resp = (p, none) := by
  simp [DapRpcHandler.handle_server_response, h]

/-- A response whose `request_seq` (5) is not in the pending table. -/
def resp7 : DapResponse :=
  { request_seq := 5, success := true, command := "threads",
    message := none, body := none }

/-- C7 witness: at a concrete one-entry table and an unknown seq, the table
is unchanged and nothing is delivered. -/
theorem c7_unknown_seq_noop_witness :
    lookupPending [(3, RHandler.callback 0)] resp7.request_seq = none ∧
    DapRpcHandler.handle_server_response [(3, RHandler.callback 0)] resp7 =
      ([(3, RHandler.callback 0)], none) :=
  ⟨by decide, c7_unknown_seq_noop [(3, RHandler.callback 0)] resp7 (by decide)⟩

/-- C8: for every host→server request whose command is not `runInTerminal`,
the mainloop replies with `success = false`, `message = "not implemented"`,
an empty body, and `request_seq` echoing the request's `seq`; the session
state and the handshake channel are untouched. -/
theorem c8_not_implemented (o : Oracle) (c : DapClient)
    (chan : List (TermId × Option Nat)) (req : DapRequest)
    (h : req.command ≠ "runInTerminal") :
    DapRpcHandler.mainloopStep o c chan (DapRpc.hostRequest req) =
      Outcome.ok (c, chan,
        [Effect.sendPayload (DapPayload.response
          { request_seq := req.seq, success := false, command := req.command,
            message := some "not implemented", body := none })], true) := by
  simp [DapRpcHandler.mainloopStep, DapClient.handle_host_request, h]

/-- A host→server request with an unhandled command. -/
def req8 : DapRequest := { seq := 9, command := "evaluate", arguments := none }

/-- C8 witness: a concrete `evaluate` host request receives the
`"not implemented"` failure response echoing seq 9. -/
theorem c8_not_implemented_witness :
    DapRpcHandler.mainloopStep oracle0 client0 [] (DapRpc.hostRequest req8) =
      Outcome.ok (client0, [],
        [Effect.sendPayload (DapPayload.response
          { request_seq := 9, success := false, command := "evaluate",
            message := some "not implemented", body := none })], true) :=
  c8_not_implemented oracle0 client0 [] req8 (by decide)

/-- C9: when `stop` runs and either no capabilities are stored or the
stored capabilities leave `supports_terminate_request` unset, the client
treats terminate as unsupported and sends `Disconnect` on a detached worker
(rather than `Terminate`). -/
theorem c9_stop_disconnects (c : DapClient)
    (h : c.capabilities = none ∨
         ∃ caps, c.capabilities = some caps ∧
           caps.supports_terminate_request = none) :
    DapClient.stop c = Effect.disconnectWorker := by
  have hs : c.supportsTerminate = false := by
    rcases h with h | ⟨caps, hc, hn⟩
    · simp [DapClient.supportsTerminate, h]
    · simp [DapClient.supportsTerminate, hc, hn]
  simp [DapClient.stop, hs]

/-- C9 witness: the fresh session (no capabilities stored) disconnects. -/
theorem c9_stop_disconnects_witness :
    client0.capabilities = none ∧
    DapClient.stop client0 = Effect.disconnectWorker :=
  ⟨rfl, c9_stop_disconnects client0 (Or.inl rfl)⟩

/-- C5, counterexample: seq allocation uses a wrapping 64-bit fetch-and-add,
so the claim "R1 issued before R2 implies R1.seq < R2.seq" fails once the
counter wraps: request number 1 carries seq 1 while the much later request
number `2 ^ 64` carries seq 0. -/
theorem c5_seq_wraps :
    seqOfNth 1 = 1 ∧ seqOfNth u64Size = 0 ∧
    ¬ seqOfNth 1 < seqOfNth u64Size := by
  have h1 : seqOfNth 1 = 1 := by
    rw [seqOfNth_eq]
    decide
  have h2 : seqOfNth u64Size = 0 := by
    rw [seqOfNth_eq]
    exact Nat.mod_self u64Size
  refine ⟨h1, h2, ?_⟩
  rw [h1, h2]
  decide

/-- C5 (amended): sequence numbers allocated by the protocol runtime are
strictly increasing and never reused as long as fewer than `2 ^ 64` requests
are issued in the session (the 64-bit counter wraps beyond that): for the
`m`-th and `n`-th outbound requests with `m < n < 2 ^ 64`, the seq of the
`m`-th is strictly below the seq of the `n`-th. -/
theorem c5_seq_monotonic (m n : Nat) (h1 : m < n) (h2 : n < u64Size) :
    seqOfNth m < seqOfNth n := by
  rw [seqOfNth_eq, seqOfNth_eq, Nat.mod_eq_of_lt (h1.trans h2),
    Nat.mod_eq_of_lt h2]
  exact h1

/-- C5 witness: the first two requests of a session have strictly
increasing seqs. -/
theorem c5_seq_monotonic_witness :
    0 < 1 ∧ 1 < u64Size ∧ seqOfNth 0 < seqOfNth 1 :=
  ⟨by decide, by decide, c5_seq_monotonic 0 1 (by decide) (by decide)⟩

/-- C10, counterexample: the claim "the n-th request carries seq n-1" fails
for `n = 2 ^ 64 + 1`: that request carries seq 0, not `2 ^ 64`, because the
`u64` counter has wrapped. -/
theorem c10_seq_wraps :
    seqOfNth (u64Size + 1 - 1) = 0 ∧ u64Size + 1 - 1 ≠ 0 := by
  constructor
  · rw [seqOfNth_eq]
    simp [Nat.mod_self]
  · decide

/-- C10 (amended): a fresh handler's sequence counter is initialized to 0,
the first outbound request (the `Initialize` request) carries seq 0, and
the `n`-th request carries seq `n - 1` for every `n ≤ 2 ^ 64` (beyond that
the 64-bit counter wraps). -/
theorem c10_seq_init (n : Nat) (h1 : 1 ≤ n) (h2 : n ≤ u64Size) :
    DapRpcHandler.new.seq_counter = 0 ∧ seqOfNth 0 = 0 ∧
    seqOfNth (n - 1) = n - 1 := by
  refine ⟨rfl, ?_, ?_⟩
  · rw [seqOfNth_eq]
    exact Nat.zero_mod u64Size
  · rw [seqOfNth_eq]
    refine Nat.mod_eq_of_lt ?_
    omega

/-- C10 witness: at `n = 1`, the counter starts at 0 and the first request
carries seq 0. -/
theorem c10_seq_init_witness :
    1 ≤ 1 ∧ 1 ≤ u64Size ∧
    (DapRpcHandler.new.seq_counter = 0 ∧ seqOfNth 0 = 0 ∧
      seqOfNth (1 - 1) = 1 - 1) :=
  ⟨by decide, by decide, c10_seq_init 1 (by decide) (by decide)⟩

/-- C6: a synchronous request that receives no response within the
30-second timeout returns the `"io error"` `RpcError` to the caller; the
pending entry is not removed from the table (it is still there, with its
rendezvous receiver dropped); and a late response delivered afterwards is
sent into the dropped channel and delivers nothing. -/
theorem c6_request_timeout (st : HandlerState) (command : String)
    (arguments : Option Value) (resp : DapResponse)
    (h : resp.request_seq = st.seq_counter % u64Size) :
    (DapRpcHandler.request st command arguments none).1 =
      Except.error { code := 0, message := "io error" } ∧
    lookupPending
      (DapRpcHandler.request st command arguments none).2.server_pending
      (st.seq_counter % u64Size) = some (RHandler.chan false) ∧
    (DapRpcHandler.handle_server_response
      (DapRpcHandler.request st command arguments none).2.server_pending
      resp).2 = none := by
  have hins :
      lookupPending
        (insertPending st.server_pending (st.seq_counter % u64Size)
          (RHandler.chan true)) (st.seq_counter % u64Size) =
        some (RHandler.chan true) :=
    lookupPending_insert st.server_pending (st.seq_counter % u64Size)
      (RHandler.chan true)
  have hmark :
      lookupPending
        (markReceiverDropped
          (insertPending st.server_pending (st.seq_counter % u64Size)
            (RHandler.chan true)) (st.seq_counter % u64Size))
        (st.seq_counter % u64Size) = some (RHandler.chan false) :=
    lookupPending_mark _ _ true hins
  refine ⟨rfl, ?_, ?_⟩
  · exact hmark
  · simp only [DapRpcHandler.handle_server_response,
      DapRpcHandler.request, DapRpcHandler.request_common, h]
    rw [hmark]
    rfl

/-- A late response for seq 0, the seq allocated by the timed-out request. -/
def resp6 : DapResponse :=
  { request_seq := 0, success := true, command := "threads",
    message := none, body := none }

/-- C6 witness: on a fresh handler, a timed-out `threads` request returns
the io error, leaves its entry (seq 0) in the pending table with the
receiver dropped, and a late response for seq 0 delivers nothing. -/
theorem c6_request_timeout_witness :
    resp6.request_seq = DapRpcHandler.new.seq_counter % u64Size ∧
    ((DapRpcHandler.request DapRpcHandler.new "threads" none none).1 =
        Except.error { code := 0, message := "io error" } ∧
      lookupPending
        (DapRpcHandler.request DapRpcHandler.new "threads" none
          none).2.server_pending
        (DapRpcHandler.new.seq_counter % u64Size) =
          some (RHandler.chan false) ∧
      (DapRpcHandler.handle_server_response
        (DapRpcHandler.request DapRpcHandler.new "threads" none
          none).2.server_pending resp6).2 = none) :=
  ⟨by decide, c6_request_timeout DapRpcHandler.new "threads" none resp6 (by decide)⟩

/-- C3: when the adapter sends a `runInTerminal` request with arguments,
the mainloop emits `run_in_terminal` with the run configuration's
`debug_command` set to the space-joined argument list, consumes exactly one
`(term_id, pid)` tuple from the terminal-handshake channel, stores
`term_id` in the session, and answers the adapter with `success = true`,
`request_seq` echoing the request's `seq`, and body
`RunInTerminalResponse { process_id := pid, shell_process_id := none }`. -/
theorem c3_run_in_terminal (o : Oracle) (c : DapClient) (req : DapRequest)
    (a : RunInTerminalArguments) (term_id : TermId) (pid : Option Nat)
    (rest : List (TermId × Option Nat))
    (hcmd : req.command = "runInTerminal")
    (hargs : req.arguments = some (Value.runInTerminalArgs a)) :
    DapRpcHandler.mainloopStep o c ((term_id, pid) :: rest)
      (DapRpc.hostRequest req) =
      Outcome.ok ({ c with term_id := some term_id }, rest,
        [Effect.runInTerminal { c.config with
            debug_command := some (String.intercalate " " a.args) },
         Effect.sendPayload (DapPayload.response
           { request_seq := req.seq, success := true, command := req.command,
             message := none,
             body := some (Value.runInTerminalResponse
               { process_id := pid, shell_process_id := none }) })],
        true) := by
  simp [DapRpcHandler.mainloopStep, DapClient.handle_host_request, hcmd, hargs]

/-- The scenario's `runInTerminal` host request: seq 7, args
`["node", "app.js"]`. -/
def req3 : DapRequest :=
  { seq := 7, command := "runInTerminal",
    arguments := some (Value.runInTerminalArgs { args := ["node", "app.js"] }) }

/-- C3 witness: the concrete scenario — handshake tuple `(42, some 9876)` —
yields `debug_command = "node app.js"`, stored terminal 42, and a success
response for seq 7 carrying pid 9876. -/
theorem c3_run_in_terminal_witness :
    DapRpcHandler.mainloopStep oracle0 client0 [(42, some 9876)]
      (DapRpc.hostRequest req3) =
      Outcome.ok ({ client0 with term_id := some 42 }, [],
        [Effect.runInTerminal
           { client0.config with debug_command := some "node app.js" },
         Effect.sendPayload (DapPayload.response
           { request_seq := 7, success := true, command := "runInTerminal",
             message := none,
             body := some (Value.runInTerminalResponse
               { process_id := some 9876, shell_process_id := none }) })],
        true) :=
  (c3_run_in_terminal oracle0 client0 req3 { args := ["node", "app.js"] }
    42 (some 9876) [] rfl rfl).trans (by decide)

/-- C4: on a `Stopped` event, if `all_threads_stopped` is `some true` the
client issues one `Threads` query and one `StackTrace` query per returned
thread and assembles the thread-id → stack-frames map; if
`all_threads_stopped` is false or absent no query is issued and the map is
empty; in both cases `dap_stopped(dap_id, event, stack_frames)` is emitted
to the editor. -/
theorem c4_stopped_event (o : Oracle) (c : DapClient) (s : Stopped)
    (resp : ThreadsResponse) (frames : ThreadId → StackTraceResponse)
    (ht : o.threads = Except.ok resp)
    (hf : ∀ t ∈ resp.threads, o.stackTrace t.id = Except.ok (frames t.id)) :
    (s.all_threads_stopped = some true →
      DapClient.handle_host_event o c (DapEvent.stopped s) =
        Outcome.ok (c,
          (Effect.reqThreads ::
            resp.threads.map (fun t => Effect.reqStackTrace t.id)) ++
          [Effect.dapStopped c.config.dap_id s
            (resp.threads.foldl
              (fun m t =>
                DapClient.insertFrames m t.id (frames t.id).stack_frames)
              [])])) ∧
    (s.all_threads_stopped.getD false = false →
      DapClient.handle_host_event o c (DapEvent.stopped s) =
        Outcome.ok (c, [Effect.dapStopped c.config.dap_id s []])) := by
  constructor
  · intro hs
    have hb : s.all_threads_stopped.getD false = true := by rw [hs]; rfl
    simp only [DapClient.handle_host_event, hb, if_true, ht]
    rw [stoppedStep_foldl o frames resp.threads [] [Effect.reqThreads] hf]
    simp
  · intro hs
    simp [DapClient.handle_host_event, hs]

/-- The scenario's `stopped` event: reason `"breakpoint"`, thread 1, all
threads stopped. -/
def stopped4 : Stopped :=
  { reason := "breakpoint", thread_id := some 1,
    all_threads_stopped := some true }

/-- C4 witness: with the fixture oracle (threads 1 and 2, one frame each),
the handler queries `Threads`, then `StackTrace` for threads 1 and 2, and
emits `dap_stopped` with the two-entry frame map. -/
theorem c4_stopped_event_witness :
    DapClient.handle_host_event oracle0 client0 (DapEvent.stopped stopped4) =
      Outcome.ok (client0,
        [Effect.reqThreads, Effect.reqStackTrace 1, Effect.reqStackTrace 2,
         Effect.dapStopped 1 stopped4
           [(1, [{ id := 1, name := "frame" }]),
            (2, [{ id := 2, name := "frame" }])]]) :=
  ((c4_stopped_event oracle0 client0 stopped4 threadsResp0 frames0 rfl
    (fun _ _ => rfl)).1 rfl).trans (by decide)

/-- C2: the restart check does nothing when `restarted` is false; does
nothing when the stored capabilities do not advertise terminate support and
`disconnected` is false; and otherwise commits exactly once — it clears
`restarted`, respawns the adapter process and re-runs `Initialize` if and
only if `disconnected` is true (storing the fresh capabilities), clears
both `terminated` and `disconnected`, issues `Launch(config)` on a detached
worker, and a second check on the resulting state does nothing. -/
theorem c2_check_restart (o : Oracle) (c : DapClient)
    (caps : DebuggerCapabilities)
    (hspawn : o.startProcess = Except.ok ())
    (hinit : o.initializeResp = Except.ok caps) :
    (c.restarted = false → DapClient.check_restart o c = (c, [], none)) ∧
    (c.supportsTerminate = false → c.disconnected = false →
      DapClient.check_restart o c = (c, [], none)) ∧
    (c.restarted = true →
      (c.supportsTerminate = true ∨ c.disconnected = true) →
      DapClient.check_restart o c =
        ({ c with
            restarted := false,
            terminated := false,
            disconnected := false,
            capabilities :=
              if c.disconnected then some caps else c.capabilities },
         (if c.disconnected then
            [Effect.spawnProcess, Effect.reqInitialize]
          else []) ++ [Effect.launchWorker c.config], none) ∧
      DapClient.check_restart o
        ({ c with
            restarted := false,
            terminated := false,
            disconnected := false,
            capabilities :=
              if c.disconnected then some caps else c.capabilities }) =
        ({ c with
            restarted := false,
            terminated := false,
            disconnected := false,
            capabilities :=
              if c.disconnected then some caps else c.capabilities },
         [], none)) := by
  refine ⟨?_, ?_, ?_⟩
  · intro h
    simp [DapClient.check_restart, h]
  · intro h1 h2
    simp [DapClient.check_restart, h1, h2]
  · intro h1 h2
    cases hd : c.disconnected with
    | false =>
        have hs : c.supportsTerminate = true := by
          rcases h2 with h | h
          · exact h
          · rw [hd] at h
            cases h
        constructor
        · simp only [DapClient.check_restart, h1, hd, hs, hspawn, hinit]
          simp
        · simp [DapClient.check_restart]
    | true =>
        constructor
        · simp only [DapClient.check_restart, h1, hd, hspawn, hinit]
          simp
        · simp [DapClient.check_restart]

/-- C2 witness: on the terminated-and-disconnected restart-pending session
with the all-success oracle, the check respawns, re-initializes, clears the
flags and fires `Launch` on a worker. -/
theorem c2_check_restart_witness :
    oracle0.startProcess = Except.ok () ∧
    oracle0.initializeResp = Except.ok caps0 ∧
    clientRestart.restarted = true ∧
    clientRestart.disconnected = true ∧
    DapClient.check_restart oracle0 clientRestart =
      ({ clientRestart with
          restarted := false,
          terminated := false,
          disconnected := false,
          capabilities := some caps0 },
       [Effect.spawnProcess, Effect.reqInitialize,
        Effect.launchWorker clientRestart.config], none) := by
  refine ⟨rfl, rfl, rfl, rfl, ?_⟩
  exact (((c2_check_restart oracle0 clientRestart caps0 rfl rfl).2.2 rfl
    (Or.inr rfl)).1).trans (by decide)

end Dap
